import Mathlib

/-!
# Verification of the Prometheus MCP server response-shaping core

A shallow embedding of `src/prometheus_mcp_server/server.py`: the pagination,
filtering and compaction shapers, the auth resolver, the upstream request
executor's error classification, and the tool-layer composition in
`execute_query`, `list_metrics` and `get_metric_metadata`.

JSON values are modelled by the inductive `Json`; Python dicts are association
lists in insertion order (all dicts built by this code use literal, distinct
keys).  A Python code path that raises is modelled by `Option`/`Except`
(`none` / `.error` where the Python raises).  Python string truthiness
(`if config.token:`) is modelled as non-emptiness.
-/

/-- JSON values as parsed from upstream responses.  Numbers are modelled as
integers: the shapers never compute with numeric values, they only move them
around, so the exact numeric domain is irrelevant to every property proved
here. -/
inductive Json where
  | null : Json
  | bool (b : Bool) : Json
  | num (n : Int) : Json
  | str (s : String) : Json
  | arr (elems : List Json) : Json
  | obj (fields : List (String × Json)) : Json

namespace Json

/-- Key lookup in an association list (first match), embedding Python dict
subscripting: the dicts built by this code never repeat a key. -/
def lookup (fields : List (String × Json)) (key : String) : Option Json :=
  match fields with
  | [] => none
  | (k, v) :: rest => if k = key then some v else lookup rest key

/-- `d[key]` / `d.get(key)` on a Python dict: `none` when `d` is not a dict or
the key is absent (the `d[key]` form raises there; callers that would raise
propagate the `none`). -/
def get? : Json → String → Option Json
  | .obj fields, key => lookup fields key
  | _, _ => none

/-- `isinstance(x, list)`. -/
def isArr : Json → Bool
  | .arr _ => true
  | _ => false

/-- The element list of a JSON array (callers only use it under `isArr`). -/
def asArr : Json → List Json
  | .arr xs => xs
  | _ => []

/-- Python `len(...)`: defined for lists, dicts and strings, raises (`none`)
otherwise. -/
def jlen : Json → Option Int
  | .arr xs => some xs.length
  | .obj fs => some fs.length
  | .str s => some s.length
  | _ => none

end Json

/-! ## Python slicing

`apply_pagination` relies on Python's slice semantics `data[i:j]` / `data[i:]`,
including the from-the-end interpretation of negative indices, so we embed
them exactly. -/

/-- Normalisation of a Python slice endpoint `i` against a sequence of length
`n`: a negative index counts from the end clamped below at 0, a non-negative
index is clamped above at `n`. -/
def pyIndex (n : Nat) (i : Int) : Nat :=
  if i < 0 then ((n : Int) + i).toNat else min i.toNat n

/-- Python `l[i:j]`. -/
def pySlice (l : List α) (i j : Int) : List α :=
  (l.take (pyIndex l.length j)).drop (pyIndex l.length i)

/-- Python `l[i:]`. -/
def pySliceFrom (l : List α) (i : Int) : List α :=
  l.drop (pyIndex l.length i)

/-! ## Pagination shaper (`apply_pagination`, server.py lines 134-165) -/

/-- The dictionary returned by `apply_pagination`: `data` holds the
`"data"` entry and the remaining fields are the entries of `"metadata"`
(`total`, `offset`, `limit`, `returned`, `hasMore`), in insertion order. -/
structure PaginationResult (α : Type) where
  data : List α
  total : Int
  offset : Int
  limit : Option Int
  returned : Int
  hasMore : Bool
deriving DecidableEq, Repr

/-- Embedding of `apply_pagination(data, limit, offset)`.  `start_index =
offset or 0` maps `None` to `0` and leaves every other integer (including
negative ones: `0` is the only falsy `int`) unchanged, which is exactly
`Option.getD`. -/
def apply_pagination (data : List α) (limit : Option Int) (offset : Option Int) :
    PaginationResult α :=
  let total_count : Int := data.length
  let start_index : Int := offset.getD 0
  match limit with
  | some lim =>
      let end_index := start_index + lim
      let paginated_data := pySlice data start_index end_index
      { data := paginated_data
        total := total_count
        offset := start_index
        limit := some lim
        returned := paginated_data.length
        hasMore := decide (end_index < total_count) }
  | none =>
      let paginated_data := pySliceFrom data start_index
      { data := paginated_data
        total := total_count
        offset := start_index
        limit := none
        returned := paginated_data.length
        hasMore := false }

/-- The `"metadata"` dict of a pagination envelope as a JSON object, as built
at server.py lines 158-164 (insertion order `total`, `offset`, `limit`,
`returned`, `hasMore`; a `None` limit serialises as `null`). -/
def paginationMetadataJson (p : PaginationResult α) : Json :=
  .obj [("total", .num p.total),
        ("offset", .num p.offset),
        ("limit", match p.limit with | some l => .num l | none => .null),
        ("returned", .num p.returned),
        ("hasMore", .bool p.hasMore)]

/-! ## Metric name filter (`filter_metrics`, server.py lines 167-191)

Python's `re` engine is external to this repository, so `filter_metrics` is
parameterised by the compile step: `compile pat` is `none` when `re.compile`
raises `re.error`, and otherwise yields the predicate
`fun m => pattern.search(m) is truthy`.  Every property proved about
`filter_metrics` holds for an arbitrary compile step. -/

/-- Python `m.startswith(p)`: `p`'s characters are a prefix of `m`'s.  (The
library `String.startsWith` computes the same thing on byte positions, but a
character-level definition evaluates by `rfl`/`decide`.) -/
def py_startswith (m p : String) : Bool :=
  p.data.isPrefixOf m.data

/-- Embedding of `filter_metrics(metrics, filter_pattern, prefix)`; the
source's `prefix` argument is spelled `pfx` here because `prefix` is a
reserved word in Lean.  The Python guards `if prefix:` / `if filter_pattern:`
test string truthiness, so an empty string behaves like an absent argument.
A pattern that fails to compile leaves the prefix-filtered list unchanged
(the `except re.error` branch only logs). -/
def filter_metrics (compile : String → Option (String → Bool))
    (metrics : List String) (filter_pattern : Option String)
    (pfx : Option String) : List String :=
  let filtered := metrics
  let filtered := match pfx with
    | some p => if p = "" then filtered else filtered.filter (fun m => py_startswith m p)
    | none => filtered
  match filter_pattern with
  | some pat =>
      if pat = "" then filtered
      else match compile pat with
        | some search => filtered.filter (fun m => search m)
        | none => filtered
  | none => filtered

/-! ## Compaction shaper (`create_compact_query_result`, server.py lines 193-221) -/

/-- The loop body of `create_compact_query_result`: builds the compact dict
`{name, value, timestamp, labels}` for one vector item.  `none` models the
exceptions Python raises on a malformed item (`item["metric"]`,
`item["value"]`, `metric.get`, `value[0]`/`value[1]`). -/
def compact_item (item : Json) : Option Json := do
  let metric ← item.get? "metric"
  let value ← item.get? "value"
  let mfields ← match metric with | .obj fs => some fs | _ => none
  let varr ← match value with | .arr xs => some xs | _ => none
  let v ← varr.get? 1
  let ts ← varr.get? 0
  some (.obj [("name", (Json.lookup mfields "__name__").getD (.str "unknown")),
              ("value", v),
              ("timestamp", ts),
              ("labels", .obj (mfields.filter (fun kv => kv.1 != "__name__")))])

/-- Embedding of `create_compact_query_result(result_data)`: a no-op unless
`result_data["resultType"] == "vector"`; for vectors, maps every item with
`compact_item` and returns `{"resultType": "compact_vector", "result": ...}`. -/
def create_compact_query_result (result_data : Json) : Option Json := do
  let rt ← result_data.get? "resultType"
  match rt with
  | .str "vector" => do
      let res ← result_data.get? "result"
      let items ← match res with | .arr xs => some xs | _ => none
      let compact_results ← items.mapM compact_item
      some (.obj [("resultType", .str "compact_vector"),
                  ("result", .arr compact_results)])
  | _ => some result_data

/-! ## Configuration and auth resolver (server.py lines 51-100)

The module-level `config` is built from `os.environ.get(..., "")`, so every
credential field is a string and "not configured" is the empty string. -/

/-- The credential fields of `PrometheusConfig` (the embedded fields are the
ones the auth resolver and request executor read; the MCP transport settings
play no part in any claim). -/
structure PrometheusConfig where
  url : String
  username : String
  password : String
  token : String
  org_id : String
deriving DecidableEq, Repr

/-- What `get_prometheus_auth` returns: a header dict for bearer tokens, an
`HTTPBasicAuth` pair, or `None`. -/
inductive PromAuth where
  | headerAuth (headers : List (String × String))
  | basicAuth (username password : String)
  | noAuth
deriving DecidableEq, Repr

/-- Embedding of `get_prometheus_auth()`: bearer token first, then basic
credentials, then anonymous; `if config.token:` is string truthiness. -/
def get_prometheus_auth (c : PrometheusConfig) : PromAuth :=
  if c.token ≠ "" then
    .headerAuth [("Authorization", "Bearer " ++ c.token)]
  else if c.username ≠ "" ∧ c.password ≠ "" then
    .basicAuth c.username c.password
  else
    .noAuth

/-- The header dict and basic-auth argument that `make_prometheus_request`
passes to `requests.get` (server.py lines 91-100): header auth is moved into
`headers` and the `auth=` argument cleared; an `X-Scope-OrgID` header is
appended whenever `config.org_id` is truthy, on every branch. -/
def request_auth_headers (c : PrometheusConfig) :
    List (String × String) × Option (String × String) :=
  let auth := get_prometheus_auth c
  let (headers, basic) : List (String × String) × Option (String × String) :=
    match auth with
    | .headerAuth hs => (hs, none)
    | .basicAuth u p => ([], some (u, p))
    | .noAuth => ([], none)
  if c.org_id ≠ "" then (headers ++ [("X-Scope-OrgID", c.org_id)], basic)
  else (headers, basic)

/-! ## Upstream request executor (`make_prometheus_request`, server.py lines 84-132) -/

/-- The observable outcome of `requests.get`: a connection-level failure (a
`RequestException` with no response), or a response with a status code and a
body that either parses as JSON (`some`) or does not (`none`). -/
inductive HttpOutcome where
  | failure : HttpOutcome
  | response (status : Nat) (body : Option Json) : HttpOutcome

/-- The distinct failure classes of `make_prometheus_request`, one per raise
site: the `ValueError` for a missing URL (line 88), the re-raised
`requests.exceptions.RequestException` (lines 108 and 124-126), the
`ValueError` for a body that is not JSON (lines 127-129), the `ValueError`
for an envelope whose `status` is not `"success"` (line 114, carrying the
envelope's `error` value or the placeholder), and any other exception
re-raised by the final handler (lines 130-132). -/
inductive PromError where
  | configError : PromError
  | transportError : PromError
  | invalidJsonError : PromError
  | upstreamError (errorValue : Json) : PromError
  | otherError : PromError

/-- Embedding of `make_prometheus_request(endpoint, params)` as a function of
the configured URL and the HTTP outcome.  `response.raise_for_status()`
raises `requests.exceptions.HTTPError` exactly for 4xx and 5xx status codes;
`response.json()` raises `json.JSONDecodeError` when the body is not JSON;
a non-dict envelope or a missing `status`/`data` key raises
`TypeError`/`KeyError`, re-raised by the final generic handler. -/
def make_prometheus_request (url : String) (outcome : HttpOutcome) :
    Except PromError Json :=
  if url = "" then .error .configError
  else
    match outcome with
    | .failure => .error .transportError
    | .response status body =>
        if 400 ≤ status ∧ status < 600 then .error .transportError
        else
          match body with
          | none => .error .invalidJsonError
          | some result =>
              match result.get? "status" with
              | none => .error .otherError
              | some (.str "success") =>
                  match result.get? "data" with
                  | none => .error .otherError
                  | some d => .ok d
              | some _ =>
                  .error (.upstreamError
                    ((result.get? "error").getD (.str "Unknown error")))

/-! ## Tool layer (server.py lines 223-384)

Each tool first calls `make_prometheus_request` and then shapes the returned
`data` in memory, so each tool is embedded as a function of that fetched
`data` (or, for `get_metric_metadata`, of an abstract fetch step, so that the
parameters the tool sends upstream are part of the statement). -/

/-- Embedding of the response shaping of `execute_query` (lines 250-289) as a
function of the fetched `data` and the `limit`/`offset`/`compact` arguments.
Mirrors the source: build `result_data`, compact it when requested, and when
`limit`/`offset` was supplied and the *raw* `data["result"]` is a list,
paginate the raw result and, when compacting, overwrite `resultType`/`result`
with the compaction of the paginated slice. -/
def execute_query (data : Json) (limit offset : Option Int) (compact : Bool) :
    Option Json := do
  let rt ← data.get? "resultType"
  let res ← data.get? "result"
  let base := Json.obj [("resultType", rt), ("result", res)]
  let result_data ← if compact then create_compact_query_result base else some base
  if (limit.isSome || offset.isSome) && res.isArr then
    let paginated := apply_pagination res.asArr limit offset
    let rd_rt ← result_data.get? "resultType"
    if compact then
      let cp ← create_compact_query_result
        (.obj [("resultType", rt), ("result", .arr paginated.data)])
      let cp_rt ← cp.get? "resultType"
      let cp_res ← cp.get? "result"
      some (.obj [("resultType", cp_rt), ("result", cp_res),
                  ("pagination", paginationMetadataJson paginated)])
    else
      some (.obj [("resultType", rd_rt), ("result", .arr paginated.data),
                  ("pagination", paginationMetadataJson paginated)])
  else
    some result_data

/-- Embedding of the response shaping of `list_metrics` (lines 344-368) as a
function of the fetched metric-name list: filter, then either paginate (when
`limit` or `offset` was supplied) or report the filtered total. -/
def list_metrics (compile : String → Option (String → Bool))
    (data : List String) (limit offset : Option Int)
    (filter_pattern pfx : Option String) : Json :=
  let filtered_metrics := filter_metrics compile data filter_pattern pfx
  if limit.isSome || offset.isSome then
    let paginated := apply_pagination filtered_metrics limit offset
    .obj [("metrics", .arr (paginated.data.map Json.str)),
          ("pagination", paginationMetadataJson paginated)]
  else
    .obj [("metrics", .arr (filtered_metrics.map Json.str)),
          ("total", .num filtered_metrics.length)]

/-- Embedding of `get_metric_metadata(metric)` (lines 370-384), parameterised
by the upstream fetch (`fetch endpoint params`, `none` when the request
raises): requests the `metadata` endpoint with `params={"metric": metric}`
and returns `data["metadata"]` (the intervening `len(data["metadata"])` in
the exit log raises on an unsized value, hence the `jlen` bind). -/
def get_metric_metadata
    (fetch : String → List (String × String) → Option Json)
    (metric : String) : Option Json := do
  let data ← fetch "metadata" [("metric", metric)]
  let md ← data.get? "metadata"
  let _ ← md.jlen
  some md

/-! ## Helper lemmas -/

/-- `apply_pagination` with a limit, written out. -/
theorem apply_pagination_some_eq (S : List α) (lim off : Int) :
    apply_pagination S (some lim) (some off) =
      { data := pySlice S off (off + lim)
        total := S.length
        offset := off
        limit := some lim
        returned := (pySlice S off (off + lim)).length
        hasMore := decide (off + lim < (S.length : Int)) } := rfl

/-- `apply_pagination` without a limit, written out. -/
theorem apply_pagination_none_eq (S : List α) (off : Int) :
    apply_pagination S none (some off) =
      { data := pySliceFrom S off
        total := S.length
        offset := off
        limit := none
        returned := (pySliceFrom S off).length
        hasMore := false } := rfl

/-- The `total` metadata field always reports the length of the list that was
handed to `apply_pagination`. -/
theorem apply_pagination_total (S : List α) (limit offset : Option Int) :
    (apply_pagination S limit offset).total = S.length := by
  cases limit <;> rfl

/-- A non-negative in-range start index normalises to itself. -/
theorem pyIndex_of_nonneg (n : Nat) (i : Int) (h0 : 0 ≤ i) (hn : i ≤ (n : Int)) :
    pyIndex n i = i.toNat := by
  unfold pyIndex
  rw [if_neg (by omega)]
  omega

/-- The Python slice `S[off:off+lim]` with `0 ≤ off ≤ len S` and `0 ≤ lim`
is drop-then-take. -/
theorem pySlice_nonneg (S : List α) (off lim : Int)
    (h0 : 0 ≤ off) (hn : off ≤ (S.length : Int)) (hl : 0 ≤ lim) :
    pySlice S off (off + lim) = (S.drop off.toNat).take lim.toNat := by
  unfold pySlice
  rw [pyIndex_of_nonneg S.length off h0 hn]
  rcases le_or_lt (off + lim) (S.length : Int) with hle | hgt
  · rw [pyIndex_of_nonneg S.length (off + lim) (by omega) hle, List.drop_take]
    congr 1
    omega
  · have hb : pyIndex S.length (off + lim) = S.length := by
      unfold pyIndex
      rw [if_neg (by omega)]
      omega
    rw [hb, List.drop_take]
    have h1 : (S.drop off.toNat).length ≤ S.length - off.toNat := by
      rw [List.length_drop]
    have h2 : (S.drop off.toNat).length ≤ lim.toNat := by
      rw [List.length_drop]
      omega
    rw [List.take_of_length_le h1, List.take_of_length_le h2]

/-! ## Claim C2 -/

/-- C2: for every sequence `S`, every `0 ≤ offset ≤ len(S)` and every
`limit ≥ 0`, `apply_pagination` returns `data = S[offset:offset+limit]`,
`returned = len(data)`, and `hasMore` true iff `offset+limit < len(S)`;
with no limit, `data = S[offset:]` and `hasMore` is false. -/
theorem apply_pagination_slice_spec {α : Type} (S : List α) (limit offset : Int)
    (hoff0 : 0 ≤ offset) (hoffn : offset ≤ (S.length : Int)) (hlim : 0 ≤ limit) :
    (apply_pagination S (some limit) (some offset)).data
        = (S.drop offset.toNat).take limit.toNat
    ∧ (apply_pagination S (some limit) (some offset)).returned
        = (((apply_pagination S (some limit) (some offset)).data).length : Int)
    ∧ ((apply_pagination S (some limit) (some offset)).hasMore = true
        ↔ offset + limit < (S.length : Int))
    ∧ (apply_pagination S none (some offset)).data = S.drop offset.toNat
    ∧ (apply_pagination S none (some offset)).hasMore = false := by
  rw [apply_pagination_some_eq, apply_pagination_none_eq]
  refine ⟨pySlice_nonneg S offset limit hoff0 hoffn hlim, rfl, ?_, ?_, rfl⟩
  · simp
  · unfold pySliceFrom
    rw [pyIndex_of_nonneg S.length offset hoff0 hoffn]

/-- Witness for C2 at `S = [10,11,12,13,14]`, `offset = 2`, `limit = 2`. -/
theorem apply_pagination_slice_spec_witness :
    (apply_pagination ([10,11,12,13,14] : List Int) (some 2) (some 2)).data
        = (([10,11,12,13,14] : List Int).drop (2 : Int).toNat).take (2 : Int).toNat
    ∧ (apply_pagination ([10,11,12,13,14] : List Int) (some 2) (some 2)).returned
        = (((apply_pagination ([10,11,12,13,14] : List Int) (some 2) (some 2)).data).length : Int)
    ∧ ((apply_pagination ([10,11,12,13,14] : List Int) (some 2) (some 2)).hasMore = true
        ↔ (2 : Int) + 2 < (([10,11,12,13,14] : List Int).length : Int))
    ∧ (apply_pagination ([10,11,12,13,14] : List Int) none (some 2)).data
        = ([10,11,12,13,14] : List Int).drop (2 : Int).toNat
    ∧ (apply_pagination ([10,11,12,13,14] : List Int) none (some 2)).hasMore = false :=
  apply_pagination_slice_spec [10,11,12,13,14] 2 2 (by decide) (by decide) (by decide)

/-! ## Claim C3 -/

/-- C3 counterexample: `apply_pagination` does *not* clamp a negative offset
to 0.  `start_index = offset or 0` keeps `-3` (only `None` and `0` are
falsy), and Python slicing then counts from the end of the sequence:
`[10,11,12,13,14][-3:-1] = [12,13]`, not the `[10,11]` produced by
`offset=0`, and the reported metadata offset stays `-3`. -/
theorem apply_pagination_negative_offset_counterexample :
    (apply_pagination ([10,11,12,13,14] : List Int) (some 2) (some (-3))).data
        ≠ (apply_pagination ([10,11,12,13,14] : List Int) (some 2) (some 0)).data
    ∧ (apply_pagination ([10,11,12,13,14] : List Int) (some 2) (some (-3))).data
        = [12, 13]
    ∧ (apply_pagination ([10,11,12,13,14] : List Int) (some 2) (some 0)).data
        = [10, 11]
    ∧ (apply_pagination ([10,11,12,13,14] : List Int) (some 2) (some (-3))).offset
        = -3 := by
  refine ⟨by decide, by decide, by decide, by decide⟩

/-- C3 amended: `apply_pagination` is total (no Python code path in it
raises: out-of-range and negative offsets flow into total slice
arithmetic); a missing offset is treated as 0; an offset `≥ len(S)` yields
an empty data slice with correct metadata; but a *negative* offset is not
clamped to 0 — it is interpreted as a Python negative index, counting from
the end of the sequence. -/
theorem apply_pagination_amended {α : Type} (S : List α) (limit : Option Int)
    (offHigh offNeg : Int)
    (hhigh : (S.length : Int) ≤ offHigh) (hneg : offNeg < 0) :
    apply_pagination S limit none = apply_pagination S limit (some 0)
    ∧ (apply_pagination S limit (some offHigh)).data = []
    ∧ (apply_pagination S limit (some offHigh)).returned = 0
    ∧ (apply_pagination S limit (some offHigh)).total = (S.length : Int)
    ∧ (apply_pagination S limit (some offHigh)).hasMore
        = (match limit with
           | some l => decide (offHigh + l < (S.length : Int))
           | none => false)
    ∧ (apply_pagination S none (some offNeg)).data
        = S.drop ((S.length : Int) + offNeg).toNat := by
  have hidx : pyIndex S.length offHigh = S.length := by
    unfold pyIndex
    rw [if_neg (by omega)]
    omega
  have hdata : ∀ lim' : Option Int, (apply_pagination S lim' (some offHigh)).data = [] := by
    intro lim'
    cases lim' with
    | some l =>
        rw [apply_pagination_some_eq]
        show pySlice S offHigh (offHigh + l) = []
        unfold pySlice
        rw [hidx]
        exact List.drop_eq_nil_of_le (by rw [List.length_take]; omega)
    | none =>
        rw [apply_pagination_none_eq]
        show pySliceFrom S offHigh = []
        unfold pySliceFrom
        rw [hidx]
        exact List.drop_eq_nil_of_le (by omega)
  refine ⟨by cases limit <;> rfl, hdata limit, ?_, apply_pagination_total S limit _,
          by cases limit <;> rfl, ?_⟩
  · cases limit with
    | some l => show ((pySlice S offHigh (offHigh + l)).length : Int) = 0
                rw [show pySlice S offHigh (offHigh + l)
                      = (apply_pagination S (some l) (some offHigh)).data from rfl,
                    hdata (some l)]
                rfl
    | none => show ((pySliceFrom S offHigh).length : Int) = 0
              rw [show pySliceFrom S offHigh
                    = (apply_pagination S none (some offHigh)).data from rfl,
                  hdata none]
              rfl
  · rw [apply_pagination_none_eq]
    show pySliceFrom S offNeg = _
    unfold pySliceFrom pyIndex
    rw [if_pos hneg]

/-- Witness for the amended C3 at `S = [10,11,12]`, `limit = 1`,
out-of-range offset `5`, negative offset `-2`. -/
theorem apply_pagination_amended_witness :
    apply_pagination ([10,11,12] : List Int) (some 1) none
        = apply_pagination ([10,11,12] : List Int) (some 1) (some 0)
    ∧ (apply_pagination ([10,11,12] : List Int) (some 1) (some 5)).data = []
    ∧ (apply_pagination ([10,11,12] : List Int) (some 1) (some 5)).returned = 0
    ∧ (apply_pagination ([10,11,12] : List Int) (some 1) (some 5)).total
        = (([10,11,12] : List Int).length : Int)
    ∧ (apply_pagination ([10,11,12] : List Int) (some 1) (some 5)).hasMore
        = (match (some 1 : Option Int) with
           | some l => decide ((5 : Int) + l < (([10,11,12] : List Int).length : Int))
           | none => false)
    ∧ (apply_pagination ([10,11,12] : List Int) none (some (-2))).data
        = ([10,11,12] : List Int).drop ((([10,11,12] : List Int).length : Int) + (-2)).toNat :=
  apply_pagination_amended [10,11,12] (some 1) 5 (-2) (by decide) (by decide)

/-! ## Claim C4 -/

/-- C4: for any regex engine, any metric list, any prefix and any non-empty
pattern: if the pattern fails to compile, `filter_metrics` returns exactly
the prefix-filtered subset and no exception escapes (the function is total);
if it compiles, the result is the prefix-filtered subset further filtered by
regex search (prefix applied first, both intersected); the prefix step is
`startswith` filtering (the whole input when no prefix is given); and the
result is always an order-preserving subset of the input. -/
theorem filter_metrics_spec (compile : String → Option (String → Bool))
    (metrics : List String) (pfx : Option String) (pat : String)
    (hpat : pat ≠ "") :
    filter_metrics compile metrics (some pat) pfx
      = (match compile pat with
         | none => filter_metrics compile metrics none pfx
         | some search =>
             (filter_metrics compile metrics none pfx).filter (fun m => search m))
    ∧ filter_metrics compile metrics none pfx
      = (match pfx with
         | some p => if p = "" then metrics
                     else metrics.filter (fun m => py_startswith m p)
         | none => metrics)
    ∧ (filter_metrics compile metrics (some pat) pfx).Sublist metrics := by
  have h2 : filter_metrics compile metrics none pfx
      = (match pfx with
         | some p => if p = "" then metrics
                     else metrics.filter (fun m => py_startswith m p)
         | none => metrics) := rfl
  have h1 : filter_metrics compile metrics (some pat) pfx
      = (match compile pat with
         | none => filter_metrics compile metrics none pfx
         | some search =>
             (filter_metrics compile metrics none pfx).filter (fun m => search m)) := by
    simp only [filter_metrics]
    rw [if_neg hpat]
    cases compile pat <;> rfl
  have hsub : (filter_metrics compile metrics none pfx).Sublist metrics := by
    rw [h2]
    cases pfx with
    | none => exact List.Sublist.refl metrics
    | some p =>
        by_cases hp : p = ""
        · simp only [if_pos hp]
          exact List.Sublist.refl metrics
        · simp only [if_neg hp]
          exact List.filter_sublist metrics
  refine ⟨h1, h2, ?_⟩
  rw [h1]
  cases compile pat with
  | none => exact hsub
  | some search => exact (List.filter_sublist _).trans hsub

/-- Witness for C4: an engine rejecting `"[invalid"`, with a prefix. -/
theorem filter_metrics_spec_witness :
    filter_metrics (fun _ => none) ["storage_total", "storage_used", "cpu_usage"]
        (some "[invalid") (some "storage_")
      = filter_metrics (fun _ => none) ["storage_total", "storage_used", "cpu_usage"]
          none (some "storage_")
    ∧ filter_metrics (fun _ => none) ["storage_total", "storage_used", "cpu_usage"]
        none (some "storage_")
      = ["storage_total", "storage_used", "cpu_usage"].filter
          (fun m => py_startswith m "storage_")
    ∧ (filter_metrics (fun _ => none) ["storage_total", "storage_used", "cpu_usage"]
        (some "[invalid") (some "storage_")).Sublist
          ["storage_total", "storage_used", "cpu_usage"] :=
  filter_metrics_spec (fun _ => none) ["storage_total", "storage_used", "cpu_usage"]
    (some "storage_") "[invalid" (by decide)

/-! ## Claim C6 -/

/-- A well-formed vector item `{metric: {…}, value: [ts, v]}`, the input
shape `create_compact_query_result` expects for each element of a vector
result. -/
def mkVectorItem (m : List (String × Json)) (ts v : Json) : Json :=
  .obj [("metric", .obj m), ("value", .arr [ts, v])]

/-- The compact item the spec promises for a well-formed vector item: `name`
is the metric's `__name__` value, or the literal `"unknown"` when that key is
absent; `labels` is the metric mapping with `__name__` removed. -/
def mkCompactItem (m : List (String × Json)) (ts v : Json) : Json :=
  .obj [("name", (Json.lookup m "__name__").getD (.str "unknown")),
        ("value", v),
        ("timestamp", ts),
        ("labels", .obj (m.filter (fun kv => kv.1 != "__name__")))]

/-- `compact_item` sends a well-formed vector item to its compact form. -/
theorem compact_item_mk (m : List (String × Json)) (ts v : Json) :
    compact_item (mkVectorItem m ts v) = some (mkCompactItem m ts v) := rfl

/-- The accumulator loop of `List.mapM` over well-formed vector items. -/
theorem mapM_loop_compact_item
    (specs : List (List (String × Json) × Json × Json)) (acc : List Json) :
    List.mapM.loop compact_item (specs.map (fun s => mkVectorItem s.1 s.2.1 s.2.2)) acc
      = some (acc.reverse ++ specs.map (fun s => mkCompactItem s.1 s.2.1 s.2.2)) := by
  induction specs generalizing acc with
  | nil => simp [List.mapM.loop]
  | cons s rest ih =>
      simp only [List.map_cons, List.mapM.loop, compact_item_mk,
                 Option.bind_eq_bind, Option.some_bind]
      rw [ih]
      simp

/-- `compact_item` mapped over a list of well-formed vector items. -/
theorem mapM_compact_item_mk (specs : List (List (String × Json) × Json × Json)) :
    (specs.map (fun s => mkVectorItem s.1 s.2.1 s.2.2)).mapM compact_item
      = some (specs.map (fun s => mkCompactItem s.1 s.2.1 s.2.2)) := by
  rw [show (specs.map (fun s => mkVectorItem s.1 s.2.1 s.2.2)).mapM compact_item
        = List.mapM.loop compact_item
            (specs.map (fun s => mkVectorItem s.1 s.2.1 s.2.2)) [] from rfl,
      mapM_loop_compact_item]
  simp

/-- C6: `create_compact_query_result` returns its input unchanged whenever
`resultType` is present and differs from `"vector"`; on a vector result of
well-formed items it returns `resultType = "compact_vector"` with every item
mapped to `{name, value, timestamp, labels}`, where `name` falls back to the
literal `"unknown"` when the metric mapping has no `__name__` key and
`labels` is the metric mapping with `__name__` removed. -/
theorem create_compact_query_result_spec (rd rt : Json)
    (m : List (String × Json)) (ts v : Json)
    (specs : List (List (String × Json) × Json × Json))
    (hrt : rd.get? "resultType" = some rt) (hnv : rt ≠ .str "vector")
    (hnoname : Json.lookup m "__name__" = none) :
    create_compact_query_result rd = some rd
    ∧ create_compact_query_result
        (.obj [("resultType", .str "vector"),
               ("result", .arr (specs.map (fun s => mkVectorItem s.1 s.2.1 s.2.2)))])
      = some (.obj [("resultType", .str "compact_vector"),
                    ("result", .arr (specs.map (fun s => mkCompactItem s.1 s.2.1 s.2.2)))])
    ∧ (compact_item (mkVectorItem m ts v)).bind (fun c => c.get? "name")
      = some (.str "unknown")
    ∧ (compact_item (mkVectorItem m ts v)).bind (fun c => c.get? "labels")
      = some (.obj (m.filter (fun kv => kv.1 != "__name__"))) := by
  refine ⟨?_, ?_, ?_, ?_⟩
  · unfold create_compact_query_result
    rw [hrt]
    simp only [Option.bind_eq_bind, Option.some_bind]
  · show ((specs.map (fun s => mkVectorItem s.1 s.2.1 s.2.2)).mapM compact_item).bind
        (fun compact_results =>
          some (Json.obj [("resultType", Json.str "compact_vector"),
                          ("result", Json.arr compact_results)]))
      = some (Json.obj [("resultType", Json.str "compact_vector"),
                        ("result", Json.arr (specs.map (fun s => mkCompactItem s.1 s.2.1 s.2.2)))])
    rw [mapM_compact_item_mk]
    rfl
  · rw [compact_item_mk]
    simp [mkCompactItem, Json.get?, Json.lookup, hnoname]
  · rw [compact_item_mk]
    simp [mkCompactItem, Json.get?, Json.lookup]

/-- Witness for C6 at a scalar no-op input, a one-item vector, and an item
whose metric mapping lacks `__name__`. -/
theorem create_compact_query_result_spec_witness :
    create_compact_query_result (.obj [("resultType", .str "scalar")])
      = some (.obj [("resultType", .str "scalar")])
    ∧ create_compact_query_result
        (.obj [("resultType", .str "vector"),
               ("result", .arr ([([("__name__", Json.str "up")], Json.num 2, Json.str "3")].map
                  (fun s => mkVectorItem s.1 s.2.1 s.2.2)))])
      = some (.obj [("resultType", .str "compact_vector"),
                    ("result", .arr ([([("__name__", Json.str "up")], Json.num 2, Json.str "3")].map
                       (fun s => mkCompactItem s.1 s.2.1 s.2.2)))])
    ∧ (compact_item (mkVectorItem [("job", Json.str "p")] (Json.num 1) (Json.str "1"))).bind
        (fun c => c.get? "name") = some (.str "unknown")
    ∧ (compact_item (mkVectorItem [("job", Json.str "p")] (Json.num 1) (Json.str "1"))).bind
        (fun c => c.get? "labels")
      = some (.obj ([("job", Json.str "p")].filter (fun kv => kv.1 != "__name__"))) :=
  create_compact_query_result_spec (.obj [("resultType", .str "scalar")]) (.str "scalar")
    [("job", Json.str "p")] (.num 1) (.str "1")
    [([("__name__", Json.str "up")], Json.num 2, Json.str "3")]
    rfl (by simp) rfl

/-! ## Claim C5 -/

/-- C5: a 2xx response whose body is not valid JSON fails with the
invalid-JSON `ValueError` (the spec's `ResponseFormatError`), which is a
different failure class from the re-raised `RequestException` (the spec's
`TransportError`) produced by HTTP error statuses and connection failures. -/
theorem make_prometheus_request_error_classes (url : String)
    (status badStatus : Nat) (body : Option Json)
    (hurl : url ≠ "") (hlo : 200 ≤ status) (hhi : status < 300)
    (hbadlo : 400 ≤ badStatus) (hbadhi : badStatus < 600) :
    make_prometheus_request url (.response status none) = .error .invalidJsonError
    ∧ make_prometheus_request url .failure = .error .transportError
    ∧ make_prometheus_request url (.response badStatus body) = .error .transportError
    ∧ PromError.invalidJsonError ≠ PromError.transportError := by
  refine ⟨?_, ?_, ?_, fun h => PromError.noConfusion h⟩
  · unfold make_prometheus_request
    rw [if_neg hurl]
    show (if 400 ≤ status ∧ status < 600 then Except.error PromError.transportError
          else Except.error PromError.invalidJsonError)
        = Except.error PromError.invalidJsonError
    rw [if_neg (by omega)]
  · unfold make_prometheus_request
    rw [if_neg hurl]
  · unfold make_prometheus_request
    rw [if_neg hurl]
    show (if 400 ≤ badStatus ∧ badStatus < 600 then Except.error PromError.transportError
          else _)
        = Except.error PromError.transportError
    rw [if_pos (show 400 ≤ badStatus ∧ badStatus < 600 from ⟨hbadlo, hbadhi⟩)]

/-- Witness for C5: a 200 response with an unparsable body versus a 500
response and a connection failure. -/
theorem make_prometheus_request_error_classes_witness :
    make_prometheus_request "http://prom:9090" (.response 200 none)
      = .error .invalidJsonError
    ∧ make_prometheus_request "http://prom:9090" .failure = .error .transportError
    ∧ make_prometheus_request "http://prom:9090" (.response 500 (some (.obj [])))
      = .error .transportError
    ∧ PromError.invalidJsonError ≠ PromError.transportError :=
  make_prometheus_request_error_classes "http://prom:9090" 200 500 (some (.obj []))
    (by decide) (by decide) (by decide) (by decide) (by decide)

/-! ## Claim C7 -/

/-- C7: `get_metric_metadata` asks the upstream `metadata` endpoint with
exactly `params = {"metric": metric}`, and whenever that response carries a
`metadata` sequence, the tool returns exactly that sequence. -/
theorem get_metric_metadata_spec
    (fetch : String → List (String × String) → Option Json)
    (metric : String) (d : Json) (md : List Json)
    (hfetch : fetch "metadata" [("metric", metric)] = some d)
    (hmd : d.get? "metadata" = some (.arr md)) :
    get_metric_metadata fetch metric = some (.arr md) := by
  unfold get_metric_metadata
  rw [hfetch]
  simp [hmd, Json.jlen]

/-- Witness for C7: an upstream stub serving one metadata entry for `up`. -/
theorem get_metric_metadata_spec_witness :
    get_metric_metadata
      (fun e _ => if e = "metadata"
        then some (.obj [("metadata", .arr [.obj [("type", .str "gauge")]])])
        else none)
      "up"
      = some (.arr [.obj [("type", .str "gauge")]]) :=
  get_metric_metadata_spec
    (fun e _ => if e = "metadata"
      then some (.obj [("metadata", .arr [.obj [("type", .str "gauge")]])])
      else none)
    "up" (.obj [("metadata", .arr [.obj [("type", .str "gauge")]])])
    [.obj [("type", .str "gauge")]] rfl rfl

/-! ## Claim C8 -/

/-- C8: auth precedence and the additive org header.  With a bearer token
configured the outbound request carries `Authorization: Bearer <token>` and
no basic credential, even if username/password are also set; otherwise with
both username and password configured a basic credential is passed and no
`Authorization` header; otherwise neither; and whenever `org_id` is
configured the `X-Scope-OrgID` header is added on every branch. -/
theorem auth_resolution_spec (c : PrometheusConfig) :
    (c.token ≠ "" →
      ("Authorization", "Bearer " ++ c.token) ∈ (request_auth_headers c).1
      ∧ (request_auth_headers c).2 = none)
    ∧ (c.token = "" → c.username ≠ "" → c.password ≠ "" →
      (request_auth_headers c).2 = some (c.username, c.password)
      ∧ ((request_auth_headers c).1.all (fun kv => kv.1 != "Authorization")) = true)
    ∧ (c.token = "" → (c.username = "" ∨ c.password = "") →
      (request_auth_headers c).2 = none
      ∧ ((request_auth_headers c).1.all (fun kv => kv.1 != "Authorization")) = true)
    ∧ (c.org_id ≠ "" → ("X-Scope-OrgID", c.org_id) ∈ (request_auth_headers c).1) := by
  unfold request_auth_headers get_prometheus_auth
  by_cases ht : c.token = "" <;>
    by_cases hup : c.username ≠ "" ∧ c.password ≠ "" <;>
      by_cases ho : c.org_id = "" <;>
        simp [ht, hup, ho] <;> tauto

/-! ## Claim C9 -/

/-- C9: an empty string in a credential field behaves exactly like an absent
field.  With `token = ""` resolution falls through to the basic-credential
test; with `username = ""` or `password = ""` (and no token) it falls through
to anonymous; with `org_id = ""` no `X-Scope-OrgID` header is emitted on any
branch. -/
theorem empty_string_credentials_spec (url u p t o : String) :
    get_prometheus_auth ⟨url, u, p, "", o⟩
      = (if u ≠ "" ∧ p ≠ "" then .basicAuth u p else .noAuth)
    ∧ get_prometheus_auth ⟨url, "", p, "", o⟩ = .noAuth
    ∧ get_prometheus_auth ⟨url, u, "", "", o⟩ = .noAuth
    ∧ ((request_auth_headers ⟨url, u, p, t, ""⟩).1.all
        (fun kv => kv.1 != "X-Scope-OrgID")) = true := by
  refine ⟨?_, ?_, ?_, ?_⟩
  · unfold get_prometheus_auth
    simp
  · unfold get_prometheus_auth
    simp
  · unfold get_prometheus_auth
    simp
  · unfold request_auth_headers get_prometheus_auth
    by_cases ht : t = "" <;> by_cases hup : u ≠ "" ∧ p ≠ "" <;> simp [ht, hup]

/-! ## Claim C10 -/

/-- C10: the `total` reported by `list_metrics` counts the filtered metric
list, never the raw upstream list: without pagination the top-level `total`
is the filtered length, with pagination `pagination.total` is that same
filtered length. -/
theorem list_metrics_total_spec (compile : String → Option (String → Bool))
    (data : List String) (limit offset : Option Int) (pat pfx : Option String) :
    if limit.isSome || offset.isSome then
      ((list_metrics compile data limit offset pat pfx).get? "pagination").bind
          (fun j => j.get? "total")
        = some (.num ((filter_metrics compile data pat pfx).length : Int))
    else
      (list_metrics compile data limit offset pat pfx).get? "total"
        = some (.num ((filter_metrics compile data pat pfx).length : Int)) := by
  by_cases h : limit.isSome || offset.isSome
  · rw [if_pos h]
    unfold list_metrics
    rw [if_pos h]
    simp [Json.get?, Json.lookup, paginationMetadataJson, apply_pagination_total]
  · rw [if_neg h]
    unfold list_metrics
    rw [if_neg h]
    simp [Json.get?, Json.lookup]

/-! ## Claim C1 -/

/-- Whatever `create_compact_query_result` returns is either its input or a
two-key `{resultType: "compact_vector", result: [...]}` object — in
particular it never contains a `pagination` key of its own. -/
theorem create_compact_shapes (x y : Json) (h : create_compact_query_result x = some y) :
    y = x ∨ ∃ cs, y = .obj [("resultType", .str "compact_vector"), ("result", .arr cs)] := by
  unfold create_compact_query_result at h
  cases hx : x.get? "resultType" with
  | none => rw [hx] at h; exact absurd h (by simp)
  | some rt =>
      rw [hx] at h
      simp only [Option.bind_eq_bind, Option.some_bind] at h
      split at h
      · cases hres : x.get? "result" with
        | none => rw [hres] at h; exact absurd h (by simp)
        | some res =>
            rw [hres] at h
            simp only [Option.bind_eq_bind, Option.some_bind] at h
            cases res with
            | arr xs =>
                simp only [Option.bind_eq_bind, Option.some_bind] at h
                cases hm : xs.mapM compact_item with
                | none => rw [hm] at h; exact absurd h (by simp)
                | some cs =>
                    rw [hm] at h
                    simp only [Option.bind_eq_bind, Option.some_bind] at h
                    right
                    exact ⟨cs, (Option.some.inj h).symm⟩
            | null => exact absurd h (by simp)
            | bool b => exact absurd h (by simp)
            | num n => exact absurd h (by simp)
            | str s => exact absurd h (by simp)
            | obj fs => exact absurd h (by simp)
      · left
        exact (Option.some.inj h).symm

/-- C1: when `compact = true`, `limit`/`offset` supplied and the raw result
is a list, `execute_query` returns the object whose `resultType`/`result`
are those of the compaction of the paginated slice of the *raw* result,
together with the `pagination` metadata block (the compaction of the full
result is computed and discarded, but its success is required); and — for
arbitrary arguments — a returned object carries a `pagination` key only when
`limit` or `offset` was supplied and the raw `data["result"]` was a list. -/
theorem execute_query_compact_paginate_spec
    (rt : Json) (items : List Json) (limit offset : Option Int)
    (data2 : Json) (limit2 offset2 : Option Int) (compact2 : Bool) (r : Json)
    (hlo : limit.isSome ∨ offset.isSome)
    (hfull : (create_compact_query_result
        (.obj [("resultType", rt), ("result", .arr items)])).isSome)
    (hr : execute_query data2 limit2 offset2 compact2 = some r)
    (hpag : (r.get? "pagination").isSome) :
    execute_query (.obj [("resultType", rt), ("result", .arr items)]) limit offset true
      = (do
          let paginated := apply_pagination items limit offset
          let cp ← create_compact_query_result
            (.obj [("resultType", rt), ("result", .arr paginated.data)])
          let cp_rt ← cp.get? "resultType"
          let cp_res ← cp.get? "result"
          some (Json.obj [("resultType", cp_rt), ("result", cp_res),
                          ("pagination", paginationMetadataJson paginated)]))
    ∧ ((limit2.isSome ∨ offset2.isSome)
        ∧ ∃ its, data2.get? "result" = some (.arr its)) := by
  constructor
  · obtain ⟨cFull, hcF⟩ := Option.isSome_iff_exists.mp hfull
    unfold execute_query
    rw [show (Json.obj [("resultType", rt), ("result", Json.arr items)]).get? "resultType"
          = some rt from rfl]
    rw [show (Json.obj [("resultType", rt), ("result", Json.arr items)]).get? "result"
          = some (Json.arr items) from rfl]
    simp only [Option.bind_eq_bind, Option.some_bind, if_true]
    rw [hcF]
    simp only [Option.bind_eq_bind, Option.some_bind]
    have hcond : ((limit.isSome || offset.isSome) && (Json.arr items).isArr) = true := by
      rw [Bool.and_eq_true, Bool.or_eq_true]
      exact ⟨hlo, rfl⟩
    rw [if_pos hcond]
    have hw : (cFull.get? "resultType").isSome := by
      rcases create_compact_shapes _ _ hcF with rfl | ⟨cs, rfl⟩ <;>
        simp [Json.get?, Json.lookup]
    obtain ⟨w, hww⟩ := Option.isSome_iff_exists.mp hw
    rw [hww]
    simp only [Option.bind_eq_bind, Option.some_bind, if_true]
    rfl
  · unfold execute_query at hr
    cases hrt : data2.get? "resultType" with
    | none => rw [hrt] at hr; exact absurd hr (by simp)
    | some rt2 =>
      rw [hrt] at hr
      cases hres : data2.get? "result" with
      | none => rw [hres] at hr; exact absurd hr (by simp)
      | some res =>
        rw [hres] at hr
        by_cases hcond : ((limit2.isSome || offset2.isSome) && res.isArr) = true
        · obtain ⟨hor, hisarr⟩ := (Bool.and_eq_true _ _).mp hcond
          refine ⟨(Bool.or_eq_true _ _).mp hor, ?_⟩
          cases res with
          | arr xs => exact ⟨xs, rfl⟩
          | null => exact absurd hisarr (by simp [Json.isArr])
          | bool b => exact absurd hisarr (by simp [Json.isArr])
          | num n => exact absurd hisarr (by simp [Json.isArr])
          | str s => exact absurd hisarr (by simp [Json.isArr])
          | obj fs => exact absurd hisarr (by simp [Json.isArr])
        · simp only [Bool.and_eq_true, Bool.or_eq_true] at hcond
          cases compact2 with
          | false =>
              simp [hcond] at hr
              rw [← hr] at hpag
              exact absurd hpag (by simp [Json.get?, Json.lookup])
          | true =>
              simp [hcond] at hr
              rcases create_compact_shapes _ _ hr with h | ⟨cs, h⟩
              · rw [h] at hpag
                exact absurd hpag (by simp [Json.get?, Json.lookup])
              · rw [h] at hpag
                exact absurd hpag (by simp [Json.get?, Json.lookup])

/-- The spec scenario's upstream data for C1: 20 synthetic vector items
`metric_0 .. metric_19`. -/
def c1Items : List Json := (List.range 20).map (fun i =>
  Json.obj [("metric", Json.obj [("__name__", Json.str ("metric_" ++ toString i))]),
            ("value", Json.arr [Json.num 123, Json.str (toString i)])])

/-- The fetched `data` of the C1 scenario. -/
def c1Data : Json := Json.obj [("resultType", Json.str "vector"), ("result", Json.arr c1Items)]

/-- The expected C1 scenario output: the 5 compacted items `metric_2 ..
metric_6` plus a pagination block with `hasMore = true`. -/
def c1Result : Json := Json.obj
  [("resultType", Json.str "compact_vector"),
   ("result", Json.arr ((List.range' 2 5).map (fun i =>
      Json.obj [("name", Json.str ("metric_" ++ toString i)),
                ("value", Json.str (toString i)),
                ("timestamp", Json.num 123),
                ("labels", Json.obj [])]))),
   ("pagination", Json.obj [("total", Json.num 20), ("offset", Json.num 2),
                            ("limit", Json.num 5), ("returned", Json.num 5),
                            ("hasMore", Json.bool true)])]

/-- Witness for C1 at the spec scenario
`execute_query("up", limit=5, offset=2, compact=true)` over 20 synthetic
vector items. -/
theorem execute_query_compact_paginate_spec_witness :
    execute_query c1Data (some 5) (some 2) true
      = (do
          let paginated := apply_pagination c1Items (some 5) (some 2)
          let cp ← create_compact_query_result
            (.obj [("resultType", Json.str "vector"), ("result", .arr paginated.data)])
          let cp_rt ← cp.get? "resultType"
          let cp_res ← cp.get? "result"
          some (Json.obj [("resultType", cp_rt), ("result", cp_res),
                          ("pagination", paginationMetadataJson paginated)]))
    ∧ (((some 5 : Option Int)).isSome ∨ ((some 2 : Option Int)).isSome)
      ∧ ∃ its, c1Data.get? "result" = some (.arr its) :=
  execute_query_compact_paginate_spec (Json.str "vector") c1Items (some 5) (some 2)
    c1Data (some 5) (some 2) true c1Result
    (Or.inl rfl) (by rfl) (by rfl) (by rfl)
